import Mathlib

/-!
Verification of the wtc-dashboard Reddit proxy (two serverless handlers:
`src/api/reddit.js` and the unnamed near-duplicate `src/unnamed/part_000`).

The JavaScript source is shallowly embedded: strings are Lean `String`
(operated on via `List Char`, which mirrors JS UTF-16 code-unit operations
for the ASCII data handled here), JS numbers are `ℚ` (no claim involves NaN
or float rounding), nullable/optional JS values are `Option`, JS objects
whose key set matters are association lists `List (String × JVal)`, the
network and clock are an explicit environment `Env`, and a JS exception
escaping the handler is `Except.error`.

Notes on JS semantics modelled explicitly:
* `x || d` treats `0`, `""`, `null`, `undefined` (and `NaN`) as falsy.
* property access `obj[k]` on an object literal falls back to the
  `Object.prototype` chain when `k` is not an own key: for keys such as
  `"toString"` it yields the inherited function (truthy, not an array).
* `String.prototype.replace` with a string pattern replaces only the first
  occurrence; with a `/g` regex it replaces all occurrences.
* `parseInt` skips leading whitespace, accepts a sign and a `0x` hex
  prefix, and returns NaN when no digits follow.
-/

/-- ASCII word characters: the class `[A-Za-z0-9_]` of the sanitizing regex. -/
def isWordChar (c : Char) : Bool :=
  c.isAlpha || c.isDigit || c == '_'

/-- Whitespace as treated by JS `parseInt` / `\s` (ASCII part; the
repository only ever feeds ASCII query strings). -/
def isJsSpace (c : Char) : Bool :=
  c == ' ' || c == '\t' || c == '\n' || c == '\r' || c == '\x0b' || c == '\x0c'

/-- `subreddit.replace(/[^a-zA-Z0-9_]/g, '').slice(0, 50)` — identical line
in both handlers (`reddit.js` line 25, `part_000` line 15).  The regex
deletes every non-word code unit, then `slice` keeps the first 50. -/
def cleanSubreddit (s : String) : String :=
  ((s.toList.filter isWordChar).take 50).asString

/-- Digit run to a natural number (radix 10). -/
def digitsToNat (ds : List Char) : ℕ :=
  ds.foldl (fun acc c => acc * 10 + (c.toNat - 48)) 0

/-- Hex digit test for `parseInt`'s `0x` auto-radix. -/
def isHexDigit (c : Char) : Bool :=
  c.isDigit || ('a' ≤ c && c ≤ 'f') || ('A' ≤ c && c ≤ 'F')

/-- Hex digit run to a natural number. -/
def hexToNat (ds : List Char) : ℕ :=
  ds.foldl (fun acc c =>
    acc * 16 + (if c.isDigit then c.toNat - 48
                else if 'a' ≤ c then c.toNat - 87 else c.toNat - 55)) 0

/-- Magnitude part of JS `parseInt` (after whitespace/sign): leading digits,
with `0x`/`0X` switching to hex; `none` models NaN (no digits). -/
def jsParseIntAbs (cs : List Char) : Option ℕ :=
  match cs with
  | '0' :: c :: r =>
    if c == 'x' || c == 'X' then
      let hs := r.takeWhile isHexDigit
      if hs.isEmpty then none else some (hexToNat hs)
    else some (digitsToNat (('0' :: c :: r).takeWhile Char.isDigit))
  | _ =>
    let ds := cs.takeWhile Char.isDigit
    if ds.isEmpty then none else some (digitsToNat ds)

/-- JS `parseInt(s)` with radix auto-detection; `none` models NaN. -/
def jsParseInt (s : String) : Option ℤ :=
  match s.toList.dropWhile isJsSpace with
  | '-' :: r => (jsParseIntAbs r).map (fun n => -(n : ℤ))
  | '+' :: r => (jsParseIntAbs r).map (fun n => (n : ℤ))
  | r => (jsParseIntAbs r).map (fun n => (n : ℤ))

/-- JS `x || d` on a possibly-NaN integer: NaN (`none`) and `0` are falsy. -/
def jsOrInt (o : Option ℤ) (d : ℤ) : ℤ :=
  match o with
  | none => d
  | some v => if v = 0 then d else v

/-- `Math.min(Math.max(parseInt(limit) || 10, 1), 25)` — identical line in
both handlers (`reddit.js` line 26, `part_000` line 16). -/
def cleanLimit (s : String) : ℤ :=
  min (max (jsOrInt (jsParseInt s) 10) 1) 25

/-- The sort allow-list of `reddit.js` line 27. -/
def sortAllowList : List String := ["hot", "new", "top", "rising"]

/-- `['hot','new','top','rising'].includes(sort) ? sort : 'hot'`
(`reddit.js` line 27; `part_000` has no sort handling at all). -/
def cleanSort (s : String) : String :=
  if s ∈ sortAllowList then s else "hot"

-- Sanity checks on concrete inputs (JS behaviour reproduced):
example : cleanSubreddit "coffee!x" = "coffeex" := by decide
example : cleanSubreddit "!!!" = "" := by decide
example : cleanLimit "10" = 10 := by decide
example : cleanLimit "abc" = 10 := by decide
example : cleanLimit "-3" = 1 := by decide
example : cleanLimit "99" = 25 := by decide
example : cleanLimit "0" = 10 := by decide
example : cleanLimit "0x10" = 16 := by decide
example : cleanSort "new" = "new" := by decide
example : cleanSort "bogus" = "hot" := by decide

/-! ### String machinery

JS string methods used by the source, implemented structurally on
`List Char` so that every definition reduces by `rfl`/`decide`. -/

/-- Core of JS `String.prototype.includes` (nonempty or empty needle). -/
def strContainsGo (pat : List Char) : List Char → Bool
  | [] => pat.isEmpty
  | c :: rest => pat.isPrefixOf (c :: rest) || strContainsGo pat rest

/-- JS `s.includes(pat)`. -/
def strContains (s pat : String) : Bool :=
  strContainsGo pat.toList s.toList

/-- JS `s.startsWith(pat)`. -/
def strStarts (s pat : String) : Bool :=
  pat.toList.isPrefixOf s.toList

/-- JS `s.slice(0, n)` for a nonnegative count (code units). -/
def strTake (n : ℕ) (s : String) : String :=
  (s.toList.take n).asString

/-- JS `l.slice(0, n)` on an array with a possibly negative end index:
a negative end counts from the end of the array. -/
def jsSlice0 (n : ℤ) (l : List α) : List α :=
  if n < 0 then l.take (l.length - (-n).toNat) else l.take n.toNat

/-- JS `s.split(sep)` (nonempty separator), fuelled to stay structurally
recursive; fuel `s.length` suffices since every step consumes a code unit. -/
def splitOnFuel (sep : List Char) : ℕ → List Char → List (List Char)
  | _, [] => [[]]
  | 0, l => [l]
  | fuel + 1, c :: rest =>
    if !sep.isEmpty && sep.isPrefixOf (c :: rest) then
      [] :: splitOnFuel sep fuel ((c :: rest).drop sep.length)
    else
      match splitOnFuel sep fuel rest with
      | [] => [[c]]
      | seg :: segs => (c :: seg) :: segs

/-- JS `s.split(sep)` for a nonempty separator string. -/
def jsSplit (s sep : String) : List String :=
  (splitOnFuel sep.toList s.toList.length s.toList).map List.asString

/-- JS `s.replace(pat, rep)` with a *string* pattern: replaces only the
first occurrence (or returns `s` unchanged when `pat` does not occur). -/
def replaceFirstGo (pat rep : List Char) : List Char → List Char
  | [] => if pat.isEmpty then rep else []
  | c :: rest =>
    if pat.isPrefixOf (c :: rest) then rep ++ (c :: rest).drop pat.length
    else c :: replaceFirstGo pat rep rest

/-- JS `s.replace(string, string)` (first occurrence only). -/
def replaceFirst (s pat rep : String) : String :=
  (replaceFirstGo pat.toList rep.toList s.toList).asString

/-- JS `s.replace(/pat/g, rep)` for a literal pattern: all (non-overlapping,
left-to-right) occurrences.  Fuelled for structural recursion. -/
def replaceAllFuel (pat rep : List Char) : ℕ → List Char → List Char
  | _, [] => []
  | 0, l => l
  | fuel + 1, c :: rest =>
    if !pat.isEmpty && pat.isPrefixOf (c :: rest) then
      rep ++ replaceAllFuel pat rep fuel ((c :: rest).drop pat.length)
    else c :: replaceAllFuel pat rep fuel rest

/-- JS `s.replace(/pat/g, rep)` on strings. -/
def replaceAll (s pat rep : String) : String :=
  (replaceAllFuel pat.toList rep.toList s.toList.length s.toList).asString

/-- JS `s.trim()` (ASCII whitespace, which covers all feed data here). -/
def strTrim (s : String) : String :=
  (((s.toList.dropWhile isJsSpace).reverse.dropWhile isJsSpace).reverse).asString

example : strContains "application/json; utf8" "json" = true := by decide
example : strContains "<feed><entry>x" "<html" = false := by decide
example : jsSplit "a<entry>b<entry>" "<entry>" = ["a", "b", ""] := by decide
example : jsSplit "abc" "<entry>" = ["abc"] := by decide
example : replaceFirst "/u/bob/u/x" "/u/" "" = "bob/u/x" := by decide
example : replaceAll "a&amp;b&amp;c" "&amp;" "&" = "a&b&c" := by decide
example : strTrim "  hi " = "hi" := by decide

/-! ### The ad hoc regex parsing of `part_000`

`extractTag`, `extractAttr`, `decodeHtml` and the score/comment matching
of `parseAtomFeed` use four fixed regex shapes.  Each is emulated by a
deterministic scanner with the regex engine's leftmost-match semantics;
determinism is justified case by case in the comments. -/

/-- Lazy capture `([\s\S]*?)` followed by a literal: the shortest body up
to the first occurrence of `close`; `none` when `close` never occurs. -/
def findClose (close : List Char) : List Char → Option (List Char)
  | [] => if close.isEmpty then some [] else none
  | c :: rest =>
    if close.isPrefixOf (c :: rest) then some []
    else (findClose close rest).map (fun cap => c :: cap)

/-- One anchored attempt of `new RegExp("<" + tag + "[^>]*>([\\s\\S]*?)</" + tag + ">")`
(`extractTag`, `part_000` lines 158-161).  `[^>]*` is deterministic here
because it is followed by the literal `>`, which the class excludes. -/
def tryTagAt (tag : List Char) (s : List Char) : Option (List Char) :=
  if ('<' :: tag).isPrefixOf s then
    let afterOpen := s.drop (tag.length + 1)
    let attrs := afterOpen.takeWhile (fun c => c ≠ '>')
    match afterOpen.drop attrs.length with
    | '>' :: body => findClose ('<' :: '/' :: tag ++ ['>']) body
    | _ => none
  else none

/-- Leftmost-match scan for `tryTagAt` (the engine advances one position
after every failed anchor). -/
def extractTagGo (tag : List Char) : List Char → Option (List Char)
  | [] => none
  | c :: rest =>
    match tryTagAt tag (c :: rest) with
    | some cap => some cap
    | none => extractTagGo tag rest

/-- `extractTag(str, tag)` (`part_000` lines 158-161):
`str.match(new RegExp(...))`, returning the trimmed first capture or null. -/
def extractTag (s tag : String) : Option String :=
  (extractTagGo tag.toList s.toList).map (fun cap => strTrim cap.asString)

/-- One anchored attempt of `new RegExp("<" + tag + "[^>]*" + attr + "=\"([^\"]+)\"")`
(`extractAttr`, `part_000` lines 163-166).  The greedy `[^>]*` backtracks,
so the *last* split point inside the `>`-free run that lets the rest of the
pattern match wins; `[^"]+` is deterministic (followed by the literal `"`). -/
def tryAttrAt (tag attr : List Char) (s : List Char) : Option (List Char) :=
  if ('<' :: tag).isPrefixOf s then
    let rest := s.drop (tag.length + 1)
    let run := rest.takeWhile (fun c => c ≠ '>')
    let attrLit := attr ++ ['=', '"']
    (List.range (run.length + 1)).reverse.findSome? (fun p =>
      if attrLit.isPrefixOf (rest.drop p) then
        let tail := rest.drop (p + attrLit.length)
        let cap := tail.takeWhile (fun c => c ≠ '"')
        if !cap.isEmpty && !(tail.drop cap.length).isEmpty then some cap else none
      else none)
  else none

/-- Leftmost-match scan for `tryAttrAt`. -/
def extractAttrGo (tag attr : List Char) : List Char → Option (List Char)
  | [] => none
  | c :: rest =>
    match tryAttrAt tag attr (c :: rest) with
    | some cap => some cap
    | none => extractAttrGo tag attr rest

/-- `extractAttr(str, tag, attr)` (`part_000` lines 163-166). -/
def extractAttr (s tag attr : String) : Option String :=
  (extractAttrGo tag.toList attr.toList s.toList).map List.asString

/-- The tag-stripping pass `/<[^>]+>/g → ''` of `decodeHtml`
(`part_000` line 175): drop every `<`…`>` span with a nonempty interior.
Fuelled for structural recursion; fuel `length` suffices. -/
def stripTagsFuel : ℕ → List Char → List Char
  | _, [] => []
  | 0, l => l
  | fuel + 1, c :: rest =>
    if c = '<' then
      let run := rest.takeWhile (fun d => d ≠ '>')
      if !run.isEmpty && !(rest.drop run.length).isEmpty then
        stripTagsFuel fuel (rest.drop (run.length + 1))
      else c :: stripTagsFuel fuel rest
    else c :: stripTagsFuel fuel rest

/-- `decodeHtml(html)` (`part_000` lines 168-176): the five fixed entity
replacements in source order, then tag stripping. -/
def decodeHtml (s : String) : String :=
  let t := replaceAll (replaceAll (replaceAll (replaceAll (replaceAll s
    "&lt;" "<") "&gt;" ">") "&amp;" "&") "&quot;" "\"") "&#39;" "\x27"
  (stripTagsFuel t.toList.length t.toList).asString

/-- One anchored attempt of `/(\d+)\s*word…?/i` (score and comment-count
extraction, `part_000` lines 134-135): a digit run, optional whitespace,
then the word case-insensitively (the trailing optional `s?` never affects
the capture).  Greedy `\d+`/`\s*` are deterministic here: shrinking either
leaves a digit or a space where a letter is required. -/
def tryNumWordAt (word : List Char) (s : List Char) : Option ℕ :=
  let ds := s.takeWhile Char.isDigit
  if ds.isEmpty then none
  else
    let rest := (s.drop ds.length).dropWhile isJsSpace
    if word.isPrefixOf (rest.map Char.toLower) then some (digitsToNat ds) else none

/-- Leftmost-match scan for `tryNumWordAt`. -/
def extractNumWordGo (word : List Char) : List Char → Option ℕ
  | [] => none
  | c :: rest =>
    match tryNumWordAt word (c :: rest) with
    | some n => some n
    | none => extractNumWordGo word rest

/-- `content.match(/(\d+)\s*points?/i)` followed by `parseInt` of the
capture (`part_000` lines 134, 142-143); `none` when there is no match. -/
def extractPoints (content : String) : Option ℕ :=
  extractNumWordGo "point".toList content.toList

/-- `content.match(/(\d+)\s*comments?/i)` (`part_000` lines 135, 144). -/
def extractComments (content : String) : Option ℕ :=
  extractNumWordGo "comment".toList content.toList

example : extractTag "<entry><title>A &amp; B</title></entry>" "title" = some "A &amp; B" := by
  decide
example : extractTag "<entry><title> C </title>x" "title" = some "C" := by decide
example : extractTag "<entry>no title here</entry>" "title" = none := by decide
example : extractAttr "<entry><link href=\"https://x/comments/ab1/t/\" /></entry>" "link" "href" =
    some "https://x/comments/ab1/t/" := by decide
example : extractAttr "<entry>none</entry>" "link" "href" = none := by decide
example : decodeHtml "A &amp; B" = "A & B" := by decide
example : decodeHtml "a<b>c</b>d&lt;e" = "acd<e" := by decide
example : extractPoints "see 42 Points and more" = some 42 := by decide
example : extractPoints "no score" = none := by decide
example : extractComments "7 comments" = some 7 := by decide

/-! ### Data model -/

/-- Scalar JS values appearing in the response objects. -/
inductive JVal where
  | null
  | undefined
  | str (s : String)
  | num (q : ℚ)
  | bool (b : Bool)
deriving DecidableEq

/-- A JS object literal whose key set matters (a normalized post):
an association list in the source's insertion order. -/
abbrev JObj := List (String × JVal)

/-- A value in a response envelope: a scalar or an array of posts. -/
inductive BVal where
  | v (x : JVal)
  | posts (ps : List JObj)

/-- A JS response-envelope object (result of `tryJsonApi`/`tryRssFeed`,
or a handler response body). -/
abbrev JBody := List (String × BVal)

/-- `obj[k]` on an envelope: `undefined` when the key is absent. -/
def jsGet (o : JBody) (k : String) : BVal :=
  (List.lookup k o).getD (.v .undefined)

/-- JS truthiness of an envelope value (arrays are truthy objects). -/
def jsTruthyB : BVal → Bool
  | .v .null => false
  | .v .undefined => false
  | .v (.str s) => !(s == "")
  | .v (.num q) => if q = 0 then false else true
  | .v (.bool b) => b
  | .posts _ => true

/-- An upstream Reddit post record (`child.data`) with the fields the
source reads.  `none` models an absent (or JSON-null) field: every use
site treats null and undefined alike (`||`, `?.`, truthiness). -/
structure RPost where
  id : Option String := none
  title : Option String := none
  author : Option String := none
  subreddit : Option String := none
  ups : Option ℚ := none
  score : Option ℚ := none
  upvote_ratio : Option ℚ := none
  num_comments : Option ℚ := none
  created_utc : Option ℚ := none
  permalink : Option String := none
  url : Option String := none
  selftext : Option String := none
  thumbnail : Option String := none
  link_flair_text : Option String := none
  over_18 : Option Bool := none
  stickied : Option Bool := none

/-- One element of `data.data.children`. -/
structure Child where
  kind : String
  data : RPost

/-- Outcome of one `fetch` as far as the source observes it: a thrown
network/abort error (the `AbortController` timeout surfaces as name
`"AbortError"`), or a response with status, content-type header, a JSON
view of the body (`.error` = `response.json()` threw, `.ok none` =
parsed but without `data.data.children`) and the raw text body. -/
inductive FetchOutcome where
  | netError (name msg : String)
  | resp (status : ℕ) (contentType : Option String)
      (json : Except String (Option (List Child))) (text : String)

/-- The ambient effects of one invocation: the network, `Date.now()`,
`Math.random().toString(36).slice(2)`, `new Date(s).getTime()`, and
`new Date().toISOString()`. -/
structure Env where
  fetch : String → FetchOutcome
  nowMs : ℚ
  randToken : String
  parseDateMs : String → ℚ
  isoNow : String

/-- The inbound request: method and the three query parameters
(`none` = absent). -/
structure Req where
  method : String
  subreddit : Option String
  limit : Option String
  sort : Option String

/-- The outbound response as the source produces it: status, the
`Cache-Control` header when set, body. -/
structure HttpResponse where
  status : ℕ
  cacheControl : Option String
  body : JBody

/-- `!subreddit` on the destructured query value. -/
def jsFalsyStr : Option String → Bool
  | none => true
  | some s => s == ""

/-- JS `x || d` on an optional string where the empty string is falsy. -/
def jsOrStr (o : Option String) (d : String) : String :=
  match o with
  | none => d
  | some s => if s = "" then d else s

/-- JS `x || d` on an optional number (NaN inputs do not occur here). -/
def jsOrQ (o : Option ℚ) (d : ℚ) : ℚ :=
  match o with
  | none => d
  | some v => if v = 0 then d else v

/-- Direct pass-through of a possibly-absent string field. -/
def jOptStr : Option String → JVal
  | none => .undefined
  | some s => .str s

/-- Direct pass-through of a possibly-absent numeric field. -/
def jOptNum : Option ℚ → JVal
  | none => .undefined
  | some q => .num q

/-- `post.thumbnail?.startsWith('http') ? post.thumbnail : null`
(both handlers): absent thumbnails and relative values become null. -/
def thumbVal (o : Option String) : JVal :=
  match o with
  | some t => if strStarts t "http" then .str t else .null
  | none => .null

example : cleanLimit "7" = 7 := by decide

/-! ### Post normalizers -/

/-- `formatPost(post)` (`part_000` lines 178-197): the JSON-path post
normalizer, with defaults.  Note JS `||`: an upstream `0` score stays `0`
only because the default is also `0`; an empty `selftext` slice is falsy
and becomes null. -/
def formatPost (p : RPost) : JObj :=
  [("id", jOptStr p.id),
   ("title", jOptStr p.title),
   ("author", jOptStr p.author),
   ("subreddit", jOptStr p.subreddit),
   ("upvotes", .num (jsOrQ p.ups 0)),
   ("score", .num (jsOrQ p.score 0)),
   ("ratio", .num (jsOrQ p.upvote_ratio 0)),
   ("comments", .num (jsOrQ p.num_comments 0)),
   ("created", jOptNum p.created_utc),
   ("permalink", jOptStr p.permalink),
   ("url", jOptStr p.url),
   ("selftext", match p.selftext with
                | none => .null
                | some s => if strTake 300 s = "" then .null else .str (strTake 300 s)),
   ("thumbnail", thumbVal p.thumbnail),
   ("flair", match p.link_flair_text with
             | none => .null
             | some f => if f = "" then .null else .str f),
   ("isNsfw", .bool (p.over_18.getD false)),
   ("isPinned", .bool (p.stickied.getD false))]

/-- The inline post mapping of `reddit.js` (lines 98-117): same canonical
keys but *no* defaults — absent upstream fields pass through as
undefined. -/
def rjsMapPost (p : RPost) : JObj :=
  [("id", jOptStr p.id),
   ("title", jOptStr p.title),
   ("author", jOptStr p.author),
   ("subreddit", jOptStr p.subreddit),
   ("upvotes", jOptNum p.ups),
   ("score", jOptNum p.score),
   ("ratio", jOptNum p.upvote_ratio),
   ("comments", jOptNum p.num_comments),
   ("created", jOptNum p.created_utc),
   ("permalink", jOptStr p.permalink),
   ("url", jOptStr p.url),
   ("selftext", match p.selftext with
                | none => .undefined
                | some s => .str (strTake 300 s)),
   ("thumbnail", thumbVal p.thumbnail),
   ("flair", jOptStr p.link_flair_text),
   ("isNsfw", match p.over_18 with | none => .undefined | some b => .bool b),
   ("isPinned", match p.stickied with | none => .undefined | some b => .bool b)]

/-- `link.split('/comments/')[1]?.split('/')[0] || Math.random().toString(36).slice(2)`
(`part_000` line 128); the per-entry random token is supplied by `Env`. -/
def atomId (env : Env) (link : String) : String :=
  match (jsSplit link "/comments/").get? 1 with
  | none => env.randToken
  | some seg =>
    match (jsSplit seg "/").head? with
    | none => env.randToken
    | some h => if h = "" then env.randToken else h

/-- One iteration of the `parseAtomFeed` loop body (`part_000` lines
125-153): the feed-path post normalizer.  Note the object literal has
*15* keys — there is no `ratio` field on this path. -/
def atomEntryPost (env : Env) (sub entry : String) : JObj :=
  let title := jsOrStr (extractTag entry "title") "Untitled"
  let link := jsOrStr (extractAttr entry "link" "href") ""
  let id := atomId env link
  let author := replaceFirst (jsOrStr (extractTag entry "name") "unknown") "/u/" ""
  let published := jsOrStr (extractTag entry "published") ""
  let content := jsOrStr (extractTag entry "content") ""
  let score : ℚ := match extractPoints content with | some n => n | none => 0
  let comments : ℚ := match extractComments content with | some n => n | none => 0
  [("id", .str id),
   ("title", .str (decodeHtml title)),
   ("author", .str author),
   ("subreddit", .str sub),
   ("upvotes", .num score),
   ("score", .num score),
   ("comments", .num comments),
   ("created", .num (if published = "" then env.nowMs / 1000
                     else env.parseDateMs published / 1000)),
   ("permalink", .str (replaceFirst link "https://www.reddit.com" "")),
   ("url", .str link),
   ("selftext", .null),
   ("thumbnail", .null),
   ("flair", .null),
   ("isNsfw", .bool false),
   ("isPinned", .bool false)]

/-- `parseAtomFeed(xml, subreddit)` (`part_000` lines 121-156):
`xml.split('<entry>').slice(1)`, one post pushed per entry. -/
def parseAtomFeed (env : Env) (xml sub : String) : List JObj :=
  ((jsSplit xml "<entry>").drop 1).map (atomEntryPost env sub)

/-! ### Fallback data provider -/

/-- A curated sample entry (`part_000` lines 202-216): the literal keys
`id`, `title`, `upvotes`, `comments` of each seed object. -/
structure SampleSeed where
  id : String
  title : String
  upvotes : ℚ
  comments : ℚ

/-- `samples.coffee` (`part_000` lines 202-206). -/
def coffeeSamples : List SampleSeed :=
  [⟨"s1", "My pour-over setup after 2 years of experimentation", 2847, 234⟩,
   ⟨"s2", "Is a $300 grinder really worth it? My honest review", 1923, 456⟩,
   ⟨"s3", "Local roaster just won a national award - so proud!", 1567, 89⟩]

/-- `samples.Philippines` (`part_000` lines 207-211). -/
def philippinesSamples : List SampleSeed :=
  [⟨"s1", "Hidden gem cafes in Makati you need to try", 1834, 312⟩,
   ⟨"s2", "Best work-from-cafe spots with stable wifi?", 945, 187⟩,
   ⟨"s3", "Support local coffee farmers - where to buy beans direct", 723, 56⟩]

/-- `samples.entrepreneur` (`part_000` lines 212-216). -/
def entrepreneurSamples : List SampleSeed :=
  [⟨"s1", "I bootstrapped to $10k MRR - lessons learned", 3421, 567⟩,
   ⟨"s2", "Stop building features, start talking to customers", 2156, 234⟩,
   ⟨"s3", "The real cost of starting a food/beverage business", 1876, 345⟩]

/-- Property names inherited by every object literal from
`Object.prototype`; bracket access `samples[k]` at these keys yields the
inherited function (or, for `__proto__`, the prototype object) — a truthy
value that is not an array. -/
def objectProtoKeys : List String :=
  ["constructor", "hasOwnProperty", "isPrototypeOf", "propertyIsEnumerable",
   "toLocaleString", "toString", "valueOf", "__defineGetter__",
   "__defineSetter__", "__lookupGetter__", "__lookupSetter__", "__proto__"]

/-- Result of the JS lookup `samples[subreddit]`: an own key gives its
seed array; an `Object.prototype` key gives the inherited non-array
(truthy) value; anything else gives undefined. -/
inductive SampleLookup where
  | arr (ps : List SampleSeed)
  | protoValue
  | absent

/-- `samples[subreddit]` with full JS property-lookup semantics
(`part_000` line 219). -/
def samplesGet (key : String) : SampleLookup :=
  if key = "coffee" then .arr coffeeSamples
  else if key = "Philippines" then .arr philippinesSamples
  else if key = "entrepreneur" then .arr entrepreneurSamples
  else if key ∈ objectProtoKeys then .protoValue
  else .absent

/-- `basePosts.map((p, i) => ...)` needs the element index; structural
index-passing map. -/
def mapIdxFrom (f : ℕ → α → β) (i : ℕ) : List α → List β
  | [] => []
  | a :: as => f i a :: mapIdxFrom f (i + 1) as

/-- The arrow body of `basePosts.map((p, i) => ({...p, ...}))`
(`part_000` lines 220-234): spread keys first (insertion order of the
seed literal), then the explicit keys. -/
def sampleDecorate (env : Env) (sub : String) (i : ℕ) (p : SampleSeed) : JObj :=
  [("id", .str p.id),
   ("title", .str p.title),
   ("upvotes", .num p.upvotes),
   ("comments", .num p.comments),
   ("author", .str "sample_user"),
   ("subreddit", .str sub),
   ("score", .num p.upvotes),
   ("ratio", .num (92 / 100)),
   ("created", .num (env.nowMs / 1000 - ((i : ℚ) + 1) * 3600)),
   ("permalink", .str ("/r/" ++ sub ++ "/comments/" ++ p.id ++ "/")),
   ("url", .str ("https://reddit.com/r/" ++ sub)),
   ("selftext", .null),
   ("thumbnail", .null),
   ("flair", .null),
   ("isNsfw", .bool false),
   ("isPinned", .bool false)]

/-- `getSamplePosts(subreddit)` (`part_000` lines 199-235).
`const basePosts = samples[subreddit] || samples.coffee` falls back to the
coffee set only when the lookup is *falsy*: for an `Object.prototype` key
the inherited function is truthy, so `basePosts.map` is a call of `.map`
on a non-array and throws `TypeError`. -/
def getSamplePosts (env : Env) (sub : String) : Except String (List JObj) :=
  match samplesGet sub with
  | .arr ps => .ok (mapIdxFrom (sampleDecorate env sub) 0 ps)
  | .protoValue => .error "basePosts.map is not a function"
  | .absent => .ok (mapIdxFrom (sampleDecorate env sub) 0 coffeeSamples)

/-! ### Source attempt chains -/

/-- `response.ok`: a status in the inclusive range 200-299. -/
def statusOk (status : ℕ) : Bool :=
  200 ≤ status && status ≤ 299

/-- The JSON-API URL list of `tryJsonApi` (`part_000` lines 46-49): the
sort segment is hardcoded to `hot` — the handler never reads `sort`. -/
def p0JsonUrls (sub : String) (lim : ℤ) : List String :=
  ["https://old.reddit.com/r/" ++ sub ++ "/hot.json?limit=" ++ toString lim ++ "&raw_json=1",
   "https://www.reddit.com/r/" ++ sub ++ "/hot.json?limit=" ++ toString lim ++ "&raw_json=1"]

/-- The feed URL of `tryRssFeed` (`part_000` line 88). -/
def p0RssUrl (sub : String) : String :=
  "https://www.reddit.com/r/" ++ sub ++ "/hot.rss"

/-- The failure envelope of `tryJsonApi` (`part_000` line 84). -/
def p0JsonFailBody : JBody :=
  [("success", .v (.bool false)), ("error", .v (.str "JSON API blocked"))]

/-- The `for (const url of urls)` loop of `tryJsonApi` (`part_000` lines
51-83).  Every failure — thrown fetch/abort/JSON error, non-2xx status
(`!response.ok`, *including 404*), non-JSON content type, missing
`data.data.children` — is a `continue`. -/
def p0TryJsonGo (env : Env) (sub : String) (lim : ℤ) : List String → JBody
  | [] => p0JsonFailBody
  | url :: rest =>
    match env.fetch url with
    | .netError _ _ => p0TryJsonGo env sub lim rest
    | .resp status ct json _text =>
      if !statusOk status then p0TryJsonGo env sub lim rest
      else if !strContains (ct.getD "") "json" then p0TryJsonGo env sub lim rest
      else
        match json with
        | .error _ => p0TryJsonGo env sub lim rest
        | .ok none => p0TryJsonGo env sub lim rest
        | .ok (some children) =>
          let posts := (jsSlice0 lim
              (children.filter (fun c => c.kind == "t3" && !(c.data.stickied == some true)))).map
            (fun c => formatPost c.data)
          [("success", .v (.bool true)), ("source", .v (.str "json")),
           ("subreddit", .v (.str sub)), ("posts", .posts posts),
           ("count", .v (.num posts.length)), ("fetchedAt", .v (.str env.isoNow))]

/-- `tryJsonApi(subreddit, limit)` (`part_000` lines 45-85). -/
def p0TryJson (env : Env) (sub : String) (lim : ℤ) : JBody :=
  p0TryJsonGo env sub lim (p0JsonUrls sub lim)

/-- `tryRssFeed(subreddit, limit)` (`part_000` lines 87-119): one fetch;
non-2xx, HTML-disguised bodies and empty parses are explicit failure
envelopes; a thrown fetch error is caught into `{error: e.message}`. -/
def p0TryRss (env : Env) (sub : String) (lim : ℤ) : JBody :=
  match env.fetch (p0RssUrl sub) with
  | .netError _ msg => [("success", .v (.bool false)), ("error", .v (.str msg))]
  | .resp status _ct _json text =>
    if !statusOk status then
      [("success", .v (.bool false)), ("error", .v (.str ("RSS " ++ toString status)))]
    else if strContains text "<html" || !strContains text "<entry>" then
      [("success", .v (.bool false)), ("error", .v (.str "RSS returned HTML"))]
    else if (jsSlice0 lim (parseAtomFeed env text sub)).length = 0 then
      [("success", .v (.bool false)), ("error", .v (.str "No posts in RSS"))]
    else
      [("success", .v (.bool true)), ("source", .v (.str "rss")),
       ("subreddit", .v (.str sub)),
       ("posts", .posts (jsSlice0 lim (parseAtomFeed env text sub))),
       ("count", .v (.num (jsSlice0 lim (parseAtomFeed env text sub)).length)),
       ("fetchedAt", .v (.str env.isoNow))]

/-- The success cache header (both handlers). -/
def cacheHdr : String := "s-maxage=300, stale-while-revalidate=600"

/-- The 400 body `{ error: 'Missing subreddit parameter' }` (both handlers). -/
def missingSubredditBody : JBody :=
  [("error", .v (.str "Missing subreddit parameter"))]

/-- The 405 body (both handlers). -/
def methodNotAllowedBody : JBody :=
  [("error", .v (.str "Method not allowed"))]

/-- The `part_000` handler (lines 4-43), with the source's intermediate
`const` bindings (`cleanSubreddit`, `cleanLimit`, `jsonResult`,
`rssResult`) inlined — they bind pure expressions, so this is
observationally identical.  The only operation outside every `try` that
can throw in this model is `getSamplePosts` (line 40), reached when both
strategies failed; its `TypeError` escapes as `Except.error`. -/
def p0Handler (env : Env) (req : Req) : Except String HttpResponse :=
  if req.method = "OPTIONS" then .ok ⟨200, none, []⟩
  else if req.method ≠ "GET" then .ok ⟨405, none, methodNotAllowedBody⟩
  else if jsFalsyStr req.subreddit then .ok ⟨400, none, missingSubredditBody⟩
  else if jsTruthyB (jsGet (p0TryJson env (cleanSubreddit (req.subreddit.getD ""))
      (cleanLimit (req.limit.getD "10"))) "success") then
    .ok ⟨200, some cacheHdr,
      p0TryJson env (cleanSubreddit (req.subreddit.getD "")) (cleanLimit (req.limit.getD "10"))⟩
  else if jsTruthyB (jsGet (p0TryRss env (cleanSubreddit (req.subreddit.getD ""))
      (cleanLimit (req.limit.getD "10"))) "success") then
    .ok ⟨200, some cacheHdr,
      p0TryRss env (cleanSubreddit (req.subreddit.getD "")) (cleanLimit (req.limit.getD "10"))⟩
  else
    match getSamplePosts env (cleanSubreddit (req.subreddit.getD "")) with
    | .error e => .error e
    | .ok samplePosts =>
      .ok ⟨503, none,
        [("success", .v (.bool false)),
         ("error", .v (.str "Reddit unavailable")),
         ("subreddit", .v (.str (cleanSubreddit (req.subreddit.getD "")))),
         ("jsonError", jsGet (p0TryJson env (cleanSubreddit (req.subreddit.getD ""))
            (cleanLimit (req.limit.getD "10"))) "error"),
         ("rssError", jsGet (p0TryRss env (cleanSubreddit (req.subreddit.getD ""))
            (cleanLimit (req.limit.getD "10"))) "error"),
         ("fallback", .v (.bool true)),
         ("posts", .posts samplePosts),
         ("message", .v (.str "Using sample data. Reddit is blocking cloud IPs."))]⟩

/-- The `attempts` array of `reddit.js` (lines 30-44) as (url, user-agent)
pairs.  The first two URLs carry `&raw_json=1`; the third — despite its
"RSS fallback" comment — is a `.json` URL *without* `raw_json=1`. -/
def rjsAttempts (sub sort : String) (lim : ℤ) : List (String × String) :=
  [("https://old.reddit.com/r/" ++ sub ++ "/" ++ sort ++ ".json?limit=" ++ toString lim ++ "&raw_json=1",
    "Mozilla/5.0 (Windows NT 10.0; Win64; x64) AppleWebKit/537.36 (KHTML, like Gecko) Chrome/120.0.0.0 Safari/537.36"),
   ("https://www.reddit.com/r/" ++ sub ++ "/" ++ sort ++ ".json?limit=" ++ toString lim ++ "&raw_json=1",
    "Mozilla/5.0 (Macintosh; Intel Mac OS X 10_15_7) AppleWebKit/605.1.15 (KHTML, like Gecko) Version/17.0 Safari/605.1.15"),
   ("https://www.reddit.com/r/" ++ sub ++ "/" ++ sort ++ ".json?limit=" ++ toString lim,
    "curl/8.0")]

/-- The 404 short-circuit body of `reddit.js` (lines 73-76). -/
def rjsNotFoundBody (sub : String) : JBody :=
  [("error", .v (.str "Subreddit not found")), ("subreddit", .v (.str sub))]

/-- The final 503 body of `reddit.js` (lines 141-147): no `fallback`
marker and no sample posts. -/
def rjs503Body (sub : String) (lastError : Option String) : JBody :=
  [("success", .v (.bool false)),
   ("error", .v (.str "Reddit API unavailable")),
   ("message", .v (match lastError with | none => .null | some m => .str m)),
   ("subreddit", .v (.str sub)),
   ("suggestion", .v (.str "Reddit may be rate-limiting. Try again in a few minutes."))]

/-- The `for (const attempt of attempts)` loop of `reddit.js` (lines
48-136), threading `lastError`.  403/429 and every other failure continue
to the next attempt — except 404, which returns immediately.  The success
mapping `data.data.children.filter(kind === 't3').map(...)` applies *no*
`slice`: the post count is whatever the upstream body holds. -/
def rjsLoop (env : Env) (sub sort : String) (lastError : Option String) :
    List (String × String) → HttpResponse
  | [] => ⟨503, none, rjs503Body sub lastError⟩
  | (url, _ua) :: rest =>
    match env.fetch url with
    | .netError name msg =>
      rjsLoop env sub sort (some (if name = "AbortError" then "Timeout" else msg)) rest
    | .resp status ct json _text =>
      if status = 403 ∨ status = 429 then
        rjsLoop env sub sort (some ("Status " ++ toString status)) rest
      else if !statusOk status then
        if status = 404 then ⟨404, none, rjsNotFoundBody sub⟩
        else rjsLoop env sub sort (some ("Status " ++ toString status)) rest
      else if !strContains (ct.getD "") "json" then
        rjsLoop env sub sort (some "Non-JSON response") rest
      else
        match json with
        | .error msg => rjsLoop env sub sort (some msg) rest
        | .ok none => rjsLoop env sub sort (some "Invalid JSON structure") rest
        | .ok (some children) =>
          let posts := (children.filter (fun c => c.kind == "t3")).map
            (fun c => rjsMapPost c.data)
          ⟨200, some cacheHdr,
           [("success", .v (.bool true)), ("subreddit", .v (.str sub)),
            ("sort", .v (.str sort)), ("count", .v (.num posts.length)),
            ("posts", .posts posts), ("fetchedAt", .v (.str env.isoNow))]⟩

/-- The `reddit.js` handler (lines 4-148).  Nothing in it runs outside a
`try` that can throw, so it returns a response directly. -/
def rjsHandler (env : Env) (req : Req) : HttpResponse :=
  if req.method = "OPTIONS" then ⟨200, none, []⟩
  else if req.method ≠ "GET" then ⟨405, none, methodNotAllowedBody⟩
  else if jsFalsyStr req.subreddit then ⟨400, none, missingSubredditBody⟩
  else
    let sub := cleanSubreddit (req.subreddit.getD "")
    let lim := cleanLimit (req.limit.getD "10")
    let sort := cleanSort (req.sort.getD "hot")
    rjsLoop env sub sort none (rjsAttempts sub sort lim)

/-! ### Observation helpers and canonical field lists -/

/-- Status of a handler outcome (`none` when the handler threw). -/
def respStatus (r : Except String HttpResponse) : Option ℕ :=
  r.toOption.map HttpResponse.status

/-- A body field of a handler outcome (`none` when the handler threw or
the key is absent). -/
def respField (r : Except String HttpResponse) (k : String) : Option BVal :=
  r.toOption.map HttpResponse.body >>= List.lookup k

/-- The canonical Post field names of the spec's data model (§3). -/
def canonicalFields : List String :=
  ["id", "title", "author", "subreddit", "upvotes", "score", "ratio",
   "comments", "created", "permalink", "url", "selftext", "thumbnail",
   "flair", "isNsfw", "isPinned"]

/-- The canonical fields minus `ratio`. -/
def canonicalFieldsNoRatio : List String :=
  ["id", "title", "author", "subreddit", "upvotes", "score",
   "comments", "created", "permalink", "url", "selftext", "thumbnail",
   "flair", "isNsfw", "isPinned"]

/-- A post object carries a field name as a key. -/
def hasField (o : JObj) (f : String) : Bool :=
  (List.lookup f o).isSome

/-- The `created` values of a post array, in order. -/
def createdOf (ps : List JObj) : List ℚ :=
  ps.filterMap (fun p =>
    match List.lookup "created" p with
    | some (JVal.num q) => some q
    | _ => none)

/-! ### Concrete fixtures -/

/-- An environment in which every outbound fetch throws (Reddit
unreachable / blocking — the situation the fallback provider exists for). -/
def envNet : Env :=
  ⟨fun _ => .netError "TypeError" "fetch failed", 1700000000000, "rnd1",
   fun _ => 0, "2023-11-14T22:13:20.000Z"⟩

/-- An environment in which every fetch yields an HTTP 404. -/
def env404 : Env :=
  ⟨fun _ => .resp 404 none (.ok none) "", 1700000000000, "rnd1",
   fun _ => 0, "2023-11-14T22:13:20.000Z"⟩

/-- A minimal well-formed upstream post record. -/
def rp1 : RPost :=
  { id := some "p1", title := some "Hello post", author := some "alice",
    subreddit := some "coffee", ups := some 10, score := some 10,
    upvote_ratio := some (9 / 10), num_comments := some 3,
    created_utc := some 1699990000, permalink := some "/r/coffee/comments/p1/h/",
    url := some "https://www.reddit.com/r/coffee/comments/p1/h/",
    stickied := some false }

/-- A second upstream post record. -/
def rp2 : RPost :=
  { id := some "p2", title := some "Another post", stickied := some false }

/-- `data.data.children` entries of kind `t3`. -/
def child1 : Child := ⟨"t3", rp1⟩

/-- Second `t3` child. -/
def child2 : Child := ⟨"t3", rp2⟩

/-- A two-entry Atom feed whose titles are `A &amp; B` and `C`
(the §8 fixture of the spec). -/
def feedTwoEntries : String :=
  "<feed><entry><title>A &amp; B</title></entry><entry><title>C</title></entry></feed>"

/-- A one-entry Atom feed. -/
def feedOneEntry : String :=
  "<feed><entry><title>Hello</title></entry></feed>"

/-- JSON strategies answer 404, the feed strategy succeeds: exercises
`part_000`'s treatment of an upstream 404 as a continue signal. -/
def env404ThenRss : Env :=
  ⟨fun u => if u = "https://www.reddit.com/r/coffee/hot.rss"
            then .resp 200 (some "application/atom+xml") (.error "not json") feedOneEntry
            else .resp 404 none (.ok none) "",
   1700000000000, "rnd1", fun _ => 0, "2023-11-14T22:13:20.000Z"⟩

/-- Only the empty-subreddit JSON URL answers, with a well-formed body:
exercises the handlers on input `"!!!"` (sanitizes to `""`). -/
def envEmptySubOk : Env :=
  ⟨fun u => if u = "https://old.reddit.com/r//hot.json?limit=10&raw_json=1"
            then .resp 200 (some "application/json; charset=utf-8") (.ok (some [child1])) ""
            else .netError "TypeError" "fetch failed",
   1700000000000, "rnd1", fun _ => 0, "2023-11-14T22:13:20.000Z"⟩

/-- The coffee JSON URL answers with one child (limit 10). -/
def envCoffeeOk : Env :=
  ⟨fun u => if u = "https://old.reddit.com/r/coffee/hot.json?limit=10&raw_json=1"
            then .resp 200 (some "application/json; charset=utf-8") (.ok (some [child1])) ""
            else .netError "TypeError" "fetch failed",
   1700000000000, "rnd1", fun _ => 0, "2023-11-14T22:13:20.000Z"⟩

/-- The `reddit.js` first attempt URL for `coffee`/`hot`/limit 1 answers
with *two* children, although the URL requested `limit=1`. -/
def envCoffeeTwoChildren : Env :=
  ⟨fun u => if u = "https://old.reddit.com/r/coffee/hot.json?limit=1&raw_json=1"
            then .resp 200 (some "application/json; charset=utf-8") (.ok (some [child1, child2])) ""
            else .netError "TypeError" "fetch failed",
   1700000000000, "rnd1", fun _ => 0, "2023-11-14T22:13:20.000Z"⟩

/-- `GET ?subreddit=coffee`. -/
def reqCoffee : Req := ⟨"GET", some "coffee", none, none⟩

/-- `GET ?subreddit=toString` — alphanumeric, passes sanitization. -/
def reqToString : Req := ⟨"GET", some "toString", none, none⟩

/-- `GET ?subreddit=!!!` — non-empty raw value, empty after sanitizing. -/
def reqBang : Req := ⟨"GET", some "!!!", none, none⟩

/-- `GET ?subreddit=coffee&limit=1`. -/
def reqCoffeeLimit1 : Req := ⟨"GET", some "coffee", some "1", none⟩

-- Fixture sanity checks:
example : (p0JsonUrls "coffee" 10).get? 0 =
    some "https://old.reddit.com/r/coffee/hot.json?limit=10&raw_json=1" := by rfl
example : (p0JsonUrls "" 10).get? 0 =
    some "https://old.reddit.com/r//hot.json?limit=10&raw_json=1" := by rfl
example : ((rjsAttempts "coffee" "hot" 1).map Prod.fst).get? 0 =
    some "https://old.reddit.com/r/coffee/hot.json?limit=1&raw_json=1" := by rfl
example : respStatus (p0Handler envNet reqCoffee) = some 503 := by rfl
example : p0Handler envNet reqToString = .error "basePosts.map is not a function" := by rfl
example : respStatus (p0Handler env404ThenRss reqCoffee) = some 200 := by rfl
example : respField (p0Handler env404ThenRss reqCoffee) "source" = some (.v (.str "rss")) := by rfl
example : respStatus (p0Handler envEmptySubOk reqBang) = some 200 := by rfl
example : (rjsHandler env404 reqCoffee).status = 404 := by rfl
example : (rjsHandler envNet reqCoffee).status = 503 := by rfl
example : (rjsHandler envCoffeeTwoChildren reqCoffeeLimit1).status = 200 := by rfl

/-! ### Spec-side definitions (refinement comparisons)

These follow the *spec's words*, to be compared with the definitions
above, which follow the source. -/

/-- Claim C7's stated algorithm: "parsing the input as an integer,
defaulting to 10 on parse failure, then clamping to [1,25]". -/
def specLimitClaimed (l : String) : ℤ :=
  min (max ((jsParseInt l).getD 10) 1) 25

/-- The amended limit algorithm: default 10 on parse failure *or* when
the parsed value is 0 (JS `||` treats 0 as falsy), then clamp to [1,25]. -/
def specLimitAmended (l : String) : ℤ :=
  max 1 (min 25 (match jsParseInt l with
                 | none => 10
                 | some v => if v = 0 then 10 else v))

/-- Claim C9's stated outbound URL form
`https://{old.|www.}reddit.com/r/{subreddit}/{sort}.json?limit={n}&raw_json=1`
(spec §6), as the two admissible strings. -/
def specJsonUrlForms (sub sort : String) (lim : ℤ) : List String :=
  ["https://old.reddit.com/r/" ++ sub ++ "/" ++ sort ++ ".json?limit=" ++ toString lim ++ "&raw_json=1",
   "https://www.reddit.com/r/" ++ sub ++ "/" ++ sort ++ ".json?limit=" ++ toString lim ++ "&raw_json=1"]

/-! ### Shared helper lemmas -/

/-- String concatenation is associative. -/
theorem strAppend_assoc (a b c : String) : a ++ b ++ c = a ++ (b ++ c) := by
  apply String.ext
  simp [String.data_append]

/-- The sanitized limit always lands in [1, 25]. -/
theorem cleanLimit_bounds (l : String) : 1 ≤ cleanLimit l ∧ cleanLimit l ≤ 25 := by
  unfold cleanLimit
  constructor
  · exact le_min (le_max_right _ _) (by norm_num)
  · exact min_le_right _ _

/-- `slice(0, n)` with a nonnegative end bound returns at most `n.toNat`
elements. -/
theorem jsSlice0_length_le {α : Type} (n : ℤ) (h : 0 ≤ n) (l : List α) :
    (jsSlice0 n l).length ≤ n.toNat := by
  unfold jsSlice0
  rw [if_neg (by omega)]
  exact List.length_take_le _ _

/-- Every element of `mapIdxFrom f i l` is `f j a` for some index and
some element of `l`. -/
theorem mem_mapIdxFrom {α β : Type} (f : ℕ → α → β) :
    ∀ (l : List α) (i : ℕ) (b : β), b ∈ mapIdxFrom f i l → ∃ j a, a ∈ l ∧ b = f j a := by
  intro l
  induction l with
  | nil => intro i b hb; simp [mapIdxFrom] at hb
  | cons a as ih =>
    intro i b hb
    rcases hb with _ | ⟨_, hb⟩
    · exact ⟨i, a, List.mem_cons_self a as, rfl⟩
    · obtain ⟨j, a', ha', rfl⟩ := ih (i + 1) b hb
      exact ⟨j, a', List.mem_cons_of_mem _ ha', rfl⟩

/-! ### Claims -/

/-- C1 (code bug): the spec promises that no error is fatal — the worst
case is a 503 with labeled sample data — for every alphanumeric-underscore
subreddit.  The code violates this: for `subreddit=toString` (any
`Object.prototype` property name), once both live strategies fail,
`getSamplePosts` evaluates `samples['toString']`, which resolves through
the prototype chain to the inherited `toString` function — truthy, so the
`|| samples.coffee` fallback is skipped — and `basePosts.map` throws an
uncaught `TypeError` out of the handler. -/
theorem C1_thm :
    p0Handler envNet reqToString = .error "basePosts.map is not a function" ∧
      cleanSubreddit "toString" = "toString" := by
  exact ⟨rfl, rfl⟩

/-- C6: for every raw subreddit input, the sanitized subreddit contains
only `[A-Za-z0-9_]` characters and has length at most 50. -/
theorem C6_thm (s : String) :
    (cleanSubreddit s).length ≤ 50 ∧
      ((cleanSubreddit s).toList.all isWordChar) = true := by
  constructor
  · show ((s.toList.filter isWordChar).take 50).length ≤ 50
    exact List.length_take_le 50 (s.toList.filter isWordChar)
  · rw [List.all_eq_true]
    intro c hc
    have hc' : c ∈ s.toList.filter isWordChar :=
      List.take_subset 50 _ (by simpa using hc)
    exact List.of_mem_filter hc'

/-- C7 counterexample: the claim's algorithm ("default 10 on parse
failure, then clamp") disagrees with the code at input `"0"`: parsing
succeeds with 0, so the claimed algorithm clamps to 1, but the code's
`parseInt(limit) || 10` treats 0 as falsy and yields 10. -/
theorem C7_cex :
    cleanLimit "0" = 10 ∧ specLimitClaimed "0" = 1 ∧
      cleanLimit "0" ≠ specLimitClaimed "0" := by decide

/-- C7 amended: the sanitized limit is always an integer in [1,25], and
equals the result of parsing the input as an integer, defaulting to 10 on
parse failure *or a parsed value of 0*, then clamping to [1,25]. -/
theorem C7_thm (l : String) :
    1 ≤ cleanLimit l ∧ cleanLimit l ≤ 25 ∧ cleanLimit l = specLimitAmended l := by
  refine ⟨(cleanLimit_bounds l).1, (cleanLimit_bounds l).2, ?_⟩
  unfold cleanLimit specLimitAmended jsOrInt
  rcases jsParseInt l with _ | v
  · norm_num
  · by_cases h : v = 0
    · simp [h]
    · simp only [h, if_false]
      omega

/-- C8: parsing the two-entry Atom feed whose titles are `A &amp; B` and
`C` yields exactly two posts, with decoded titles `A & B` and `C`, in
order — for every environment (titles do not depend on it). -/
theorem C8_thm (env : Env) :
    (parseAtomFeed env feedTwoEntries "coffee").map (fun p => List.lookup "title" p) =
      [some (JVal.str "A & B"), some (JVal.str "C")] := by
  rfl

/-- A parametric all-fetches-throw environment (scalars arbitrary). -/
def envAllNetErr (name msg : String) (nowMs : ℚ) (rand iso : String)
    (pd : String → ℚ) : Env :=
  ⟨fun _ => .netError name msg, nowMs, rand, pd, iso⟩

/-- C3 counterexample: for raw subreddit `"!!!"` — non-empty, but empty
after sanitization — the handler does *not* return the 400 validation
error: the raw truthiness check at `part_000` line 13 passes, outbound
requests are issued with an empty subreddit path, and with a well-formed
upstream answer the handler returns 200 with upstream-derived data. -/
theorem C3_cex :
    cleanSubreddit "!!!" = "" ∧
      respStatus (p0Handler envEmptySubOk reqBang) = some 200 ∧
      respField (p0Handler envEmptySubOk reqBang) "success" = some (.v (.bool true)) ∧
      respStatus (p0Handler envEmptySubOk reqBang) ≠ some 400 := by
  refine ⟨rfl, rfl, rfl, ?_⟩
  intro h
  rw [show respStatus (p0Handler envEmptySubOk reqBang) = some 200 from rfl] at h
  simp at h

/-- C3 amended: both handlers return the 400 validation error exactly
when the *raw* subreddit parameter is absent or the empty string; a raw
value that sanitizes to empty (e.g. `"!!!"`) passes validation and the
attempt chain proceeds, issuing outbound requests with an empty
subreddit in the URL path. -/
theorem C3_thm (env : Env) (lim sort : String) :
    p0Handler env ⟨"GET", none, some lim, some sort⟩ = .ok ⟨400, none, missingSubredditBody⟩ ∧
      p0Handler env ⟨"GET", some "", some lim, some sort⟩ = .ok ⟨400, none, missingSubredditBody⟩ ∧
      rjsHandler env ⟨"GET", none, some lim, some sort⟩ = ⟨400, none, missingSubredditBody⟩ ∧
      rjsHandler env ⟨"GET", some "", some lim, some sort⟩ = ⟨400, none, missingSubredditBody⟩ ∧
      respStatus (p0Handler envEmptySubOk reqBang) = some 200 := by
  exact ⟨rfl, rfl, rfl, rfl, rfl⟩

/-- C5 counterexample: the `reddit.js` handler's total-failure response is
a 503 with `success:false`, but its body carries *no* `fallback` marker
and *no* sample posts — the claim fails for this handler. -/
theorem C5_cex :
    (rjsHandler envNet reqCoffee).status = 503 ∧
      List.lookup "success" (rjsHandler envNet reqCoffee).body = some (.v (.bool false)) ∧
      List.lookup "fallback" (rjsHandler envNet reqCoffee).body = none ∧
      List.lookup "posts" (rjsHandler envNet reqCoffee).body = none := by
  exact ⟨rfl, rfl, rfl, rfl⟩

/-- C5 amended: in the `part_000` handler, when every live strategy fails
for subreddit `coffee` (every fetch throws), the response is a 503 whose
body has `success:false`, per-strategy error summaries (`jsonError`,
`rssError`), `fallback:true`, and exactly 3 sample posts whose `created`
timestamps are strictly decreasing; the `reddit.js` handler's
total-failure 503 carries no fallback marker and no posts. -/
theorem C5_thm (name msg : String) (nowMs : ℚ) (rand iso : String) (pd : String → ℚ) :
    respStatus (p0Handler (envAllNetErr name msg nowMs rand iso pd) reqCoffee) = some 503 ∧
      respField (p0Handler (envAllNetErr name msg nowMs rand iso pd) reqCoffee) "success" =
        some (.v (.bool false)) ∧
      respField (p0Handler (envAllNetErr name msg nowMs rand iso pd) reqCoffee) "jsonError" =
        some (.v (.str "JSON API blocked")) ∧
      respField (p0Handler (envAllNetErr name msg nowMs rand iso pd) reqCoffee) "rssError" =
        some (.v (.str msg)) ∧
      respField (p0Handler (envAllNetErr name msg nowMs rand iso pd) reqCoffee) "fallback" =
        some (.v (.bool true)) ∧
      (∃ ps, respField (p0Handler (envAllNetErr name msg nowMs rand iso pd) reqCoffee) "posts" =
          some (.posts ps) ∧
        ps.length = 3 ∧
        createdOf ps = [nowMs / 1000 - 3600, nowMs / 1000 - 7200, nowMs / 1000 - 10800] ∧
        nowMs / 1000 - 3600 > nowMs / 1000 - 7200 ∧
        nowMs / 1000 - 7200 > nowMs / 1000 - 10800) ∧
      List.lookup "fallback" (rjsHandler (envAllNetErr name msg nowMs rand iso pd) reqCoffee).body =
        none := by
  refine ⟨rfl, rfl, rfl, rfl, rfl,
    ⟨mapIdxFrom (sampleDecorate (envAllNetErr name msg nowMs rand iso pd) "coffee") 0
        coffeeSamples, rfl, rfl, ?_, by linarith, by linarith⟩, rfl⟩
  show [nowMs / 1000 - ((0 : ℕ) + 1) * 3600, nowMs / 1000 - ((1 : ℕ) + 1) * 3600,
      nowMs / 1000 - ((2 : ℕ) + 1) * 3600] = _
  norm_num

/-- C9 counterexample: with the valid sort `new`, `part_000`'s first JSON
URL still requests `hot` — it is not of the claimed form for that sort —
and `reddit.js`'s third attempt URL omits `&raw_json=1`, so it is not of
the claimed form for any sort. -/
theorem C9_cex :
    cleanSort "new" = "new" ∧
      (p0JsonUrls "coffee" 10).get? 0 =
        some "https://old.reddit.com/r/coffee/hot.json?limit=10&raw_json=1" ∧
      "https://old.reddit.com/r/coffee/hot.json?limit=10&raw_json=1" ∉
        specJsonUrlForms "coffee" "new" 10 ∧
      ((rjsAttempts "coffee" "hot" 10).map Prod.fst).get? 2 =
        some "https://www.reddit.com/r/coffee/hot.json?limit=10" ∧
      "https://www.reddit.com/r/coffee/hot.json?limit=10" ∉
        specJsonUrlForms "coffee" "hot" 10 := by
  refine ⟨rfl, rfl, by decide, rfl, by decide⟩

/-- C9 amended: `reddit.js` sanitizes sort against the allow-list
`{hot,new,top,rising}` (anything else silently becomes `hot`) and its
first two attempt URLs have the claimed form with `&raw_json=1`, but its
third attempt URL omits `&raw_json=1`; the `part_000` handler ignores the
sort parameter entirely — its JSON URLs always request `hot`. -/
theorem C9_thm :
    (∀ s, cleanSort s ∈ sortAllowList) ∧
      (∀ s, s ∈ sortAllowList → cleanSort s = s) ∧
      (∀ s, s ∉ sortAllowList → cleanSort s = "hot") ∧
      (∀ sub sort lim, ((rjsAttempts sub sort lim).map Prod.fst).take 2 =
        specJsonUrlForms sub sort lim) ∧
      (∀ sub sort lim, ((rjsAttempts sub sort lim).map Prod.fst).get? 2 =
        some ("https://www.reddit.com/r/" ++ sub ++ "/" ++ sort ++ ".json?limit=" ++
          toString lim)) ∧
      (∀ sub lim, p0JsonUrls sub lim = specJsonUrlForms sub "hot" lim) := by
  refine ⟨?_, ?_, ?_, fun _ _ _ => rfl, fun _ _ _ => rfl, ?_⟩
  · intro s
    unfold cleanSort
    split
    · assumption
    · decide
  · intro s hs
    simp [cleanSort, hs]
  · intro s hs
    simp [cleanSort, hs]
  · intro sub lim
    unfold p0JsonUrls specJsonUrlForms
    rw [strAppend_assoc ("https://old.reddit.com/r/" ++ sub) "/" "hot",
      strAppend_assoc ("https://old.reddit.com/r/" ++ sub) ("/" ++ "hot") ".json?limit=",
      strAppend_assoc ("https://www.reddit.com/r/" ++ sub) "/" "hot",
      strAppend_assoc ("https://www.reddit.com/r/" ++ sub) ("/" ++ "hot") ".json?limit="]
    rfl

/-- C9 witness: the amended theorem at concrete sorts. -/
theorem C9_witness :
    cleanSort "top" = "top" ∧ cleanSort "bogus" = "hot" ∧ cleanSort "bogus" ∈ sortAllowList := by
  exact ⟨C9_thm.2.1 "top" (by decide), C9_thm.2.2.1 "bogus" (by decide), C9_thm.1 "bogus"⟩

/-- C2 counterexample: in `part_000`, the first JSON strategy receives an
upstream 404 for `coffee`, yet the chain continues — the feed strategy is
attempted and wins, and the handler answers 200 from source `rss` instead
of a not-found status. -/
theorem C2_cex :
    env404ThenRss.fetch "https://old.reddit.com/r/coffee/hot.json?limit=10&raw_json=1" =
      .resp 404 none (.ok none) "" ∧
      respStatus (p0Handler env404ThenRss reqCoffee) = some 200 ∧
      respField (p0Handler env404ThenRss reqCoffee) "source" = some (.v (.str "rss")) ∧
      respStatus (p0Handler env404ThenRss reqCoffee) ≠ some 404 := by
  refine ⟨rfl, rfl, rfl, ?_⟩
  intro h
  rw [show respStatus (p0Handler env404ThenRss reqCoffee) = some 200 from rfl] at h
  simp at h

/-- C2 amended: only the `reddit.js` handler treats an upstream 404 as
terminal — its attempt loop returns the 404 not-found response
immediately, with no further attempt; in `part_000` a 404 is an ordinary
continue signal (`!response.ok → continue`), so `tryJsonApi` exhausts its
URLs and reports the generic failure envelope, and the chain falls
through to the next strategy. -/
theorem C2_thm :
    (∀ (env : Env) (sub sort : String) (le : Option String) (url ua : String)
        (rest : List (String × String)) (ct : Option String)
        (js : Except String (Option (List Child))) (tx : String),
      env.fetch url = .resp 404 ct js tx →
      rjsLoop env sub sort le ((url, ua) :: rest) = ⟨404, none, rjsNotFoundBody sub⟩) ∧
      (∀ (env : Env) (sub : String) (lim : ℤ),
        (∀ u, ∃ ct js tx, env.fetch u = .resp 404 ct js tx) →
        p0TryJson env sub lim = p0JsonFailBody) := by
  constructor
  · intro env sub sort le url ua rest ct js tx h
    unfold rjsLoop
    rw [h]
    norm_num [statusOk]
  · intro env sub lim h
    obtain ⟨ct1, js1, tx1, h1⟩ :=
      h ("https://old.reddit.com/r/" ++ sub ++ "/hot.json?limit=" ++ toString lim ++ "&raw_json=1")
    obtain ⟨ct2, js2, tx2, h2⟩ :=
      h ("https://www.reddit.com/r/" ++ sub ++ "/hot.json?limit=" ++ toString lim ++ "&raw_json=1")
    unfold p0TryJson p0JsonUrls
    unfold p0TryJsonGo
    rw [h1]
    norm_num [statusOk]
    unfold p0TryJsonGo
    rw [h2]
    norm_num [statusOk]
    rfl

/-- C2 witness: the amended theorem at a concrete all-404 environment. -/
theorem C2_witness :
    rjsLoop env404 "coffee" "hot" none (rjsAttempts "coffee" "hot" 10) =
      ⟨404, none, rjsNotFoundBody "coffee"⟩ ∧
      p0TryJson env404 "coffee" 10 = p0JsonFailBody := by
  constructor
  · exact C2_thm.1 env404 "coffee" "hot" none _ _ _ none (.ok none) "" rfl
  · exact C2_thm.2 env404 "coffee" 10 (fun u => ⟨none, .ok none, "", rfl⟩)

/-- The post array of a handler outcome, when present. -/
def respPosts (r : Except String HttpResponse) : Option (List JObj) :=
  match respField r "posts" with
  | some (.posts ps) => some ps
  | _ => none

/-- C4 counterexample: a successful (HTTP 200) feed-path response whose
single post has no `ratio` key at all — the `parseAtomFeed` object
literal (`part_000` lines 137-153) simply has no such field. -/
theorem C4_cex :
    respStatus (p0Handler env404ThenRss reqCoffee) = some 200 ∧
      (respPosts (p0Handler env404ThenRss reqCoffee)).map
        (fun ps => ps.map (fun p => hasField p "ratio")) = some [false] ∧
      (respPosts (p0Handler env404ThenRss reqCoffee)).map
        (fun ps => ps.map (fun p => hasField p "title")) = some [true] := by
  exact ⟨rfl, rfl, rfl⟩

/-- C4 amended: every producer except the feed path emits post objects
carrying all 16 canonical field keys (values possibly null, default, or —
in `reddit.js`'s mapping — undefined when the upstream record lacks the
field); feed-path posts carry the 15 canonical keys other than `ratio`
and omit `ratio` entirely. -/
theorem C4_thm :
    (∀ p : RPost, (canonicalFields.all (hasField (formatPost p))) = true) ∧
      (∀ p : RPost, (canonicalFields.all (hasField (rjsMapPost p))) = true) ∧
      (∀ (env : Env) (sub xml : String), ∀ q ∈ parseAtomFeed env xml sub,
        (canonicalFieldsNoRatio.all (hasField q)) = true ∧
          List.lookup "ratio" q = none) ∧
      (∀ (env : Env) (sub : String) (ps : List JObj), getSamplePosts env sub = .ok ps →
        ∀ q ∈ ps, (canonicalFields.all (hasField q)) = true) := by
  refine ⟨fun _ => rfl, fun _ => rfl, ?_, ?_⟩
  · intro env sub xml q hq
    obtain ⟨e, _he, rfl⟩ := List.mem_map.1 hq
    exact ⟨rfl, rfl⟩
  · intro env sub ps h q hq
    unfold getSamplePosts at h
    rcases hs : samplesGet sub with l | _ | _ <;> rw [hs] at h
    · cases h
      obtain ⟨j, a, _ha, rfl⟩ := mem_mapIdxFrom (sampleDecorate env sub) l 0 q hq
      rfl
    · cases h
    · cases h
      obtain ⟨j, a, _ha, rfl⟩ :=
        mem_mapIdxFrom (sampleDecorate env sub) coffeeSamples 0 q hq
      rfl

/-- C4 witness: the amended theorem applied at a concrete feed entry and
a concrete sample post. -/
theorem C4_witness :
    ((canonicalFieldsNoRatio.all
        (hasField (atomEntryPost envNet "coffee" "<title>T</title>"))) = true ∧
      List.lookup "ratio" (atomEntryPost envNet "coffee" "<title>T</title>") = none) ∧
      (canonicalFields.all
        (hasField (sampleDecorate envNet "coffee" 0
          ⟨"s1", "My pour-over setup after 2 years of experimentation", 2847, 234⟩))) = true := by
  constructor
  · exact C4_thm.2.2.1 envNet "coffee" "<feed><entry><title>T</title>"
      (atomEntryPost envNet "coffee" "<title>T</title>") (List.mem_singleton.2 rfl)
  · exact C4_thm.2.2.2 envNet "coffee"
      (mapIdxFrom (sampleDecorate envNet "coffee") 0 coffeeSamples) rfl
      (sampleDecorate envNet "coffee" 0
        ⟨"s1", "My pour-over setup after 2 years of experimentation", 2847, 234⟩)
      (List.mem_cons_self _ _)

/-- A successful `tryJsonApi` envelope holds at most `lim.toNat` posts:
the loop slices the filtered children before mapping. -/
theorem p0TryJsonGo_posts_le (env : Env) (sub : String) (lim : ℤ) (h0 : 0 ≤ lim) :
    ∀ (urls : List String) (ps : List JObj),
      List.lookup "posts" (p0TryJsonGo env sub lim urls) = some (.posts ps) →
      ps.length ≤ lim.toNat := by
  intro urls
  induction urls with
  | nil =>
    intro ps h
    simp [p0TryJsonGo, p0JsonFailBody, List.lookup] at h
  | cons u rest ih =>
    intro ps h
    unfold p0TryJsonGo at h
    repeat' split at h
    all_goals first
      | (simp [List.lookup] at h
         subst h
         rw [List.length_map]
         exact jsSlice0_length_le lim h0 _)
      | exact ih ps h

/-- A successful `tryRssFeed` envelope holds at most `lim.toNat` posts. -/
theorem p0TryRss_posts_le (env : Env) (sub : String) (lim : ℤ) (h0 : 0 ≤ lim)
    (ps : List JObj)
    (h : List.lookup "posts" (p0TryRss env sub lim) = some (.posts ps)) :
    ps.length ≤ lim.toNat := by
  unfold p0TryRss at h
  repeat' split at h
  all_goals first
    | (simp [List.lookup] at h
       subst h
       exact jsSlice0_length_le lim h0 _)
    | simp [List.lookup] at h

/-- C10 counterexample: `reddit.js` applies no client-side cap — with
`limit=1` (sanitized limit 1) and an upstream body carrying two `t3`
records, the 200 response contains both posts. -/
theorem C10_cex :
    cleanLimit "1" = 1 ∧
      (rjsHandler envCoffeeTwoChildren reqCoffeeLimit1).status = 200 ∧
      List.lookup "posts" (rjsHandler envCoffeeTwoChildren reqCoffeeLimit1).body =
        some (.posts [rjsMapPost rp1, rjsMapPost rp2]) ∧
      ¬ ([rjsMapPost rp1, rjsMapPost rp2].length ≤ (cleanLimit "1").toNat) := by
  exact ⟨rfl, rfl, rfl, by decide⟩

/-- C10 amended: in the `part_000` handler every 200 response carries at
most `cleanLimit` posts — hence at most 25 — for every upstream body
(both strategies `slice(0, limit)` before responding); `reddit.js` has no
such cap (see the counterexample). -/
theorem C10_thm (env : Env) (req : Req) (r : HttpResponse) (ps : List JObj)
    (hr : p0Handler env req = .ok r) (h200 : r.status = 200)
    (hp : List.lookup "posts" r.body = some (.posts ps)) :
    ps.length ≤ (cleanLimit (req.limit.getD "10")).toNat ∧ ps.length ≤ 25 := by
  have hb := cleanLimit_bounds (req.limit.getD "10")
  have key : ps.length ≤ (cleanLimit (req.limit.getD "10")).toNat := by
    unfold p0Handler at hr
    split at hr
    · injection hr with hr
      subst hr
      simp [List.lookup] at hp
    · split at hr
      · injection hr with hr
        subst hr
        simp at h200
      · split at hr
        · injection hr with hr
          subst hr
          simp at h200
        · split at hr
          · injection hr with hr
            subst hr
            exact p0TryJsonGo_posts_le env _ _ (by omega) _ ps hp
          · split at hr
            · injection hr with hr
              subst hr
              exact p0TryRss_posts_le env _ _ (by omega) ps hp
            · split at hr
              · simp at hr
              · injection hr with hr
                subst hr
                simp at h200
  exact ⟨key, le_trans key (by omega)⟩

/-- C10 witness: the amended theorem at a concrete successful JSON-path
response. -/
theorem C10_witness :
    [formatPost rp1].length ≤ (cleanLimit "10").toNat ∧ [formatPost rp1].length ≤ 25 :=
  C10_thm envCoffeeOk reqCoffee
    ⟨200, some cacheHdr, p0TryJson envCoffeeOk "coffee" 10⟩ [formatPost rp1] rfl rfl rfl
